import Mathlib

/-!
Verification of the tunnel connection manager (`backend/src/modules/vpn_manager.py`)
of the Dust-Game-Manager repository.

The Python module is shallowly embedded: pure helpers become Lean functions on
`String` / `List Char`; the mutable `VPNManager` object becomes an explicit
`VPNState` record threaded through the operations; external effects of the
environment (process spawning, process liveness polls, file reads, egress-IP
queries, connectivity probes) are supplied as explicit inputs, and the effects
the manager performs (spawn / terminate / kill / notify / settings writes) are
returned as an explicit trace.
-/

namespace DustVPN

/-! ### String helpers mirroring the Python string operations used by the module.

All helpers work on `String.data` (`List Char`) so that every definition
computes by plain structural recursion. -/

/-- `p` is a prefix of the second list (character-wise). -/
def isPrefixL : List Char → List Char → Bool
  | [], _ => true
  | _ :: _, [] => false
  | a :: as, b :: bs => a == b && isPrefixL as bs

/-- `pat` occurs as a contiguous sublist of the second list. -/
def containsL (pat : List Char) : List Char → Bool
  | [] => pat.isEmpty
  | c :: cs => isPrefixL pat (c :: cs) || containsL pat cs

/-- `sub in s` of Python: `pat` occurs as a contiguous substring of `s`. -/
def strContains (s pat : String) : Bool :=
  containsL pat.data s.data

/-- `s.lower()` of Python (ASCII case folding, as used by the module). -/
def strLower (s : String) : String :=
  String.mk (s.data.map Char.toLower)

/-- `s.lower().endswith(suffix)` support: suffix test on raw strings. -/
def strEndsWith (s suf : String) : Bool :=
  isPrefixL suf.data.reverse s.data.reverse

/-- `s.startswith(p)` of Python. -/
def strStartsWith (s p : String) : Bool :=
  isPrefixL p.data s.data

/-- `s.strip()` of Python: drop leading and trailing whitespace. -/
def strTrim (s : String) : String :=
  String.mk (((s.data.dropWhile Char.isWhitespace).reverse.dropWhile Char.isWhitespace).reverse)

/-- Split a character list at every character satisfying `p`; empty groups kept
(the shape of Python `str.split(sep)`). -/
def splitBy (p : Char → Bool) : List Char → List (List Char)
  | [] => [[]]
  | c :: cs =>
    match splitBy p cs with
    | [] => [[]]
    | g :: gs => if p c then [] :: g :: gs else (c :: g) :: gs

/-- `content.split('\n')` of Python. -/
def splitNewlines (s : String) : List String :=
  (splitBy (fun c => c == '\n') s.data).map String.mk

/-- `line.split()` of Python: split on whitespace runs, dropping empty pieces. -/
def pySplitWs (s : String) : List String :=
  ((splitBy Char.isWhitespace s.data).filter (fun g => !g.isEmpty)).map String.mk

/-- Remove every occurrence of `".ovpn"`: Python `name.replace('.ovpn', '')`
with the fixed 5-character pattern used by the module. -/
def removeOvpn : List Char → List Char
  | [] => []
  | '.' :: 'o' :: 'v' :: 'p' :: 'n' :: rest => removeOvpn rest
  | c :: cs => c :: removeOvpn cs

/-- `file.replace('.ovpn', '')` on a string. -/
def stripOvpn (s : String) : String :=
  String.mk (removeOvpn s.data)

/-! ### Config file parsing (`VPNManager._parse_ovpn_file`) -/

/-- The directive fields `_parse_ovpn_file` extracts from a config file.
The Python function stores the raw `remote` port token as a string; the `name`
key (always the basename with `.ovpn` removed) is kept separately by the
record builder. -/
structure OvpnInfo where
  remote_host : Option String := none
  remote_port : Option String := none
  protocol : Option String := none
deriving DecidableEq, Repr

/-- One iteration of the parsing loop of `_parse_ovpn_file`: strip the line,
skip blanks and `#` comments, split on whitespace, skip lines with fewer than
two tokens, then handle the `remote` and `proto` directives. -/
def parseOvpnLine (info : OvpnInfo) (rawLine : String) : OvpnInfo :=
  let line := strTrim rawLine
  if line = "" || strStartsWith line "#" then info
  else
    match pySplitWs line with
    | directive :: arg1 :: rest =>
      let d := strLower directive
      if d = "remote" then
        let info := { info with remote_host := some arg1 }
        match rest with
        | port :: _ => { info with remote_port := some port }
        | [] => info
      else if d = "proto" then { info with protocol := some (strLower arg1) }
      else info
    | _ => info

/-- `VPNManager._parse_ovpn_file` applied to file content that was read
successfully: fold the line parser over `content.split('\n')`. -/
def parse_ovpn_file (content : String) : OvpnInfo :=
  List.foldl parseOvpnLine {} (splitNewlines content)

/-! ### Config discovery (`VPNManager.get_available_configs`) -/

/-- A directory entry as `get_available_configs` observes it: the filename,
the result of reading the file (`none` when opening/decoding the file raises,
which is the only way `_parse_ovpn_file` can raise), and the stat data. -/
structure DirEntry where
  filename : String
  content : Option String
  size : Nat
  modified : Nat
deriving DecidableEq, Repr

/-- The record `get_available_configs` builds for one successfully parsed
file.  The `path` key (directory-joined filename) is environmental and not
modelled; `port` keeps the raw string token exactly as the Python dict does. -/
structure ConfigRecord where
  filename : String
  name : String
  server : Option String
  port : Option String
  protocol : String
  size : Nat
  modified : Nat
deriving DecidableEq, Repr

/-- Build the dict appended by `get_available_configs` for one readable file:
`name` defaults to the filename with `.ovpn` removed (the parser always sets
it that way), `protocol` defaults to `"udp"` when no `proto` directive was
seen. -/
def mkConfigRecord (filename content : String) (size modified : Nat) : ConfigRecord :=
  let info := parse_ovpn_file content
  { filename := filename
    name := stripOvpn filename
    server := info.remote_host
    port := info.remote_port
    protocol := info.protocol.getD "udp"
    size := size
    modified := modified }

/-- `VPNManager.get_available_configs`: return `[]` when the directory does
not exist; otherwise, for each listed file whose lowercased name ends in
`.ovpn`, try to parse it and append a record; when `_parse_ovpn_file` raises
(unreadable content), the exception handler logs a warning and the file is
skipped. -/
def get_available_configs (dirExists : Bool) (entries : List DirEntry) : List ConfigRecord :=
  if !dirExists then []
  else
    entries.filterMap fun e =>
      if strEndsWith (strLower e.filename) ".ovpn" then
        match e.content with
        | some content => some (mkConfigRecord e.filename content e.size e.modified)
        | none => none
      else none

/-! ### Log classification (`VPNManager._check_log_for_connection`) -/

/-- The success marker table of `_check_log_for_connection`, in source order. -/
def successIndicators : List String :=
  ["Initialization Sequence Completed",
   "Connected to",
   "TUN/TAP device opened",
   "Peer Connection Initiated"]

/-- The failure marker table of `_check_log_for_connection`, in source order. -/
def failureIndicators : List String :=
  ["AUTH_FAILED",
   "TLS_ERROR",
   "CONNECTION_FAILED",
   "SIGTERM",
   "process exiting",
   "Cannot resolve host address",
   "Connection refused",
   "SIGUSR1[soft,auth-failure]"]

/-- The three results of `_check_log_for_connection` (returned as strings in
Python). -/
inductive LogStatus
  | connected
  | failed
  | pending
deriving DecidableEq, Repr

/-- `VPNManager._check_log_for_connection`: `pending` when the log file does
not exist (or reading it raises); otherwise classify the last ≤2000 characters
of the file (supplied here as `tail`): every success marker is checked before
any failure marker, first match wins, and `pending` when no marker occurs. -/
def check_log_for_connection (logExists : Bool) (tail : String) : LogStatus :=
  if !logExists then .pending
  else if successIndicators.any (fun i => strContains tail i) then .connected
  else if failureIndicators.any (fun i => strContains tail i) then .failed
  else .pending

/-! ### Connectivity verification (`VPNManager._verify_connection_working`) -/

/-- `VPNManager._verify_connection_working`, with its three external probes
made explicit: `original` is `self._original_public_ip` (the recorded
baseline), `current` the result of `_get_public_ip()`, and `quickTest` the
result of `_quick_connectivity_test()`.  Source order: no current IP ⇒ false;
baseline present and current differs ⇒ true; no baseline ⇒ true; otherwise the
reachability probe decides. -/
def verify_connection_working (original current : Option String) (quickTest : Bool) : Bool :=
  match current with
  | none => false
  | some c =>
    match original with
    | some b => if c ≠ b then true else quickTest
    | none => true

/-! ### Effects and manager state -/

/-- The externally visible operations the manager performs, recorded as a
trace: process spawn / graceful terminate / force kill (with the child's pid),
status-change notification (one event reaches every subscribed callback), and
a rewrite of the persisted settings file. -/
inductive Effect
  | spawn (pid : Nat)
  | terminate (pid : Nat)
  | kill (pid : Nat)
  | notify (connected : Bool) (message : String)
  | saveSettings
deriving DecidableEq, Repr

/-- The result dict of `connect` / `disconnect` / `_start_openvpn_connection`.
Keys absent from a Python result dict are modelled as `false`; informational
extras (`pid`, `exit_code`, `log_file`) are not modelled. -/
structure PyResult where
  success : Bool
  message : String
  already_connected : Bool := false
  already_disconnected : Bool := false
deriving DecidableEq, Repr

/-- The content of the `vpn_settings.json` file written by `save_settings`. -/
structure SavedSettings where
  auto_connect_dlsite : Bool
  current_vpn_config_file : Option String
deriving DecidableEq, Repr

/-- The mutable fields of `VPNManager` relevant to the verified operations,
plus `saved_settings`, the last persisted settings record (`none` when no
settings file has been written). -/
structure VPNState where
  is_connected : Bool
  current_config : Option String
  connection_process : Option Nat
  connection_start_time : Option Nat
  current_vpn_config_file : Option String
  auto_connect_dlsite : Bool
  monitoring_active : Bool
  original_public_ip : Option String
  saved_settings : Option SavedSettings
deriving DecidableEq, Repr

/-- The state right after `__init__` (before `load_settings` finds a file). -/
def initState : VPNState :=
  { is_connected := false
    current_config := none
    connection_process := none
    connection_start_time := none
    current_vpn_config_file := none
    auto_connect_dlsite := false
    monitoring_active := false
    original_public_ip := none
    saved_settings := none }

/-- `VPNManager._is_process_running`: a process object exists and `poll()`
returns `None` (`pollIsNone` is that poll observation). -/
def is_process_running (proc : Option Nat) (pollIsNone : Bool) : Bool :=
  match proc with
  | none => false
  | some _ => pollIsNone

/-- `VPNManager.save_settings`: rewrite the settings file from the current
in-memory fields. -/
def save_settings (st : VPNState) : VPNState :=
  { st with saved_settings := some ⟨st.auto_connect_dlsite, st.current_vpn_config_file⟩ }

/-- `VPNManager.set_default_config`: when the path exists, store it and
persist; when it does not, only an error is logged — the function returns
nothing in either case (modelled by returning only the updated state). -/
def set_default_config (pathExists : Bool) (st : VPNState) (config_file : String) : VPNState :=
  if pathExists then save_settings { st with current_vpn_config_file := some config_file }
  else st

/-! ### Config validation (`VPNManager._validate_config_file`) -/

/-- `VPNManager._validate_config_file`: `content` is the result of reading the
file (`none` when the read raises, which the handler maps to `False`); an
empty (after strip) content or one without the substring `"remote "` is
rejected. -/
def validate_config_file (content : Option String) : Bool :=
  match content with
  | none => false
  | some c =>
    if strTrim c = "" then false
    else strContains c "remote "

/-! ### Establishment wait loop (`VPNManager._wait_for_connection_establishment`) -/

/-- One observation of the establishment polling loop, at a poll where the log
check fires (every ~2s of the 1s loop): whether `poll()` shows the child
exited, what the log check sees (file existence and tail), and what
`_verify_connection_working` would return at this point. -/
structure WaitObs where
  procExited : Bool
  logExists : Bool
  logTail : String
  verifyOk : Bool
deriving DecidableEq, Repr

/-- `VPNManager._wait_for_connection_establishment` over the finite sequence
of poll observations available before the timeout (an exhausted list is the
timeout): child exit ⇒ false; log says `failed` ⇒ false; log says `connected`
and verification passes ⇒ true; log `connected` but verification fails, or
log `pending` ⇒ keep polling. -/
def wait_for_connection_establishment : List WaitObs → Bool
  | [] => false
  | o :: rest =>
    if o.procExited then false
    else
      match check_log_for_connection o.logExists o.logTail with
      | .connected => if o.verifyOk then true else wait_for_connection_establishment rest
      | .failed => false
      | .pending => wait_for_connection_establishment rest

/-- Companion observation to the wait loop: whether a `false` return of
`_wait_for_connection_establishment` was caused by `poll()` observing the
child already exited (as opposed to a failure marker or the timeout, after
which the child is still running as far as the loop ever observed). -/
def wait_observed_exit : List WaitObs → Bool
  | [] => false
  | o :: rest =>
    if o.procExited then true
    else
      match check_log_for_connection o.logExists o.logTail with
      | .connected => if o.verifyOk then false else wait_observed_exit rest
      | .failed => false
      | .pending => wait_observed_exit rest

/-! ### Connection start (`VPNManager._start_openvpn_connection`) -/

/-- Outcome of `subprocess.Popen` in `_start_openvpn_connection`: the pid of
the started child, or one of the three caught exception classes. -/
inductive SpawnResult
  | ok (pid : Nat)
  | errFileNotFound
  | errPermission
  | errOther
deriving DecidableEq, Repr

/-- The environment a `_start_openvpn_connection` call observes: the result of
`_find_openvpn_executable`, the config file read (for `_validate_config_file`),
the spawn outcome, the `poll()` result after the 3s initialisation sleep
(`some code` when the child already exited), the establishment-loop
observations, whether the cleanup `self.connection_process.terminate()` call
itself raises (the bare `except` path of the source), and — because the
cleanup path never waits for the signalled child to exit — whether the child
not yet observed exited is in fact still alive at the instant the call
returns. -/
structure StartEnv where
  openvpn_exe : Option String
  config_content : Option String
  spawnResult : SpawnResult
  immediateExitCode : Option Int
  waitObs : List WaitObs
  terminateRaises : Bool
  childAliveAtReturn : Bool
deriving DecidableEq, Repr

/-- What a `_start_openvpn_connection` call returned and did: the result dict,
the pid of the child it spawned (if `Popen` succeeded), whether that child is
still alive at the instant the call returns, and the effect trace.  The child
is certainly dead only where `poll()` returned an exit code; after a mere
`terminate()` (an unawaited SIGTERM, unlike the wait-then-kill of
`disconnect`) liveness at return is the environment's
`childAliveAtReturn` observation.  The diagnostic suffixes produced by
`_analyze_startup_error` / `_analyze_connection_failure` are appended free
text and are not modelled. -/
structure StartOutcome where
  result : PyResult
  spawnedPid : Option Nat
  childAliveAfterReturn : Bool
  effects : List Effect
deriving DecidableEq, Repr

/-- `VPNManager._start_openvpn_connection`, path by path: missing executable
and invalid config fail before any spawn; a `Popen` exception fails with no
child created; a child that exits during the 3s initialisation window fails
with the child observed dead; a failed establishment wait calls
`self.connection_process.terminate()` — firing a SIGTERM without waiting for
the child to exit — before returning failure, and when that `terminate()`
call raises, the bare `except` returns failure with no teardown at all; only
the fully established and verified path returns success with the child
running. -/
def start_openvpn_connection (env : StartEnv) : StartOutcome :=
  match env.openvpn_exe with
  | none =>
    { result := { success := false
                  message := "OpenVPN executable not found. Please install OpenVPN client." }
      spawnedPid := none, childAliveAfterReturn := false, effects := [] }
  | some _ =>
    if !validate_config_file env.config_content then
      { result := { success := false
                    message := "Invalid or unreadable configuration file" }
        spawnedPid := none, childAliveAfterReturn := false, effects := [] }
    else
      match env.spawnResult with
      | .errFileNotFound =>
        { result := { success := false, message := "OpenVPN executable not found" }
          spawnedPid := none, childAliveAfterReturn := false, effects := [] }
      | .errPermission =>
        { result := { success := false
                      message := "Permission denied. Try running as administrator" }
          spawnedPid := none, childAliveAfterReturn := false, effects := [] }
      | .errOther =>
        { result := { success := false, message := "Failed to start OpenVPN process" }
          spawnedPid := none, childAliveAfterReturn := false, effects := [] }
      | .ok pid =>
        match env.immediateExitCode with
        | some _ =>
          { result := { success := false
                        message := "OpenVPN process terminated immediately." }
            spawnedPid := some pid, childAliveAfterReturn := false
            effects := [.spawn pid] }
        | none =>
          if wait_for_connection_establishment env.waitObs then
            { result := { success := true, message := "VPN connection started successfully" }
              spawnedPid := some pid, childAliveAfterReturn := true
              effects := [.spawn pid] }
          else if env.terminateRaises then
            { result := { success := false
                          message := "Failed to establish VPN connection within timeout period" }
              spawnedPid := some pid
              childAliveAfterReturn := !wait_observed_exit env.waitObs && env.childAliveAtReturn
              effects := [.spawn pid] }
          else
            { result := { success := false
                          message := "Failed to establish VPN connection." }
              spawnedPid := some pid
              childAliveAfterReturn := !wait_observed_exit env.waitObs && env.childAliveAtReturn
              effects := [.spawn pid, .terminate pid] }

/-! ### Disconnect (`VPNManager.disconnect`) -/

/-- `VPNManager.disconnect`: an inactive session returns success with
`already_disconnected` and touches nothing; an active one stops the monitor,
terminates the child (`terminate()`, then `kill()` when the 10s graceful wait
times out — `graceful` is that observation), resets the session fields,
notifies subscribers, and returns success. -/
def disconnect (st : VPNState) (graceful : Bool) :
    VPNState × PyResult × List Effect :=
  if !st.is_connected then
    (st, { success := true, message := "VPN is not connected", already_disconnected := true }, [])
  else
    let termEffs :=
      match st.connection_process with
      | none => []
      | some pid => if graceful then [Effect.terminate pid] else [Effect.terminate pid, Effect.kill pid]
    let st' := { st with
      is_connected := false
      current_config := none
      connection_process := none
      connection_start_time := none
      monitoring_active := false }
    (st', { success := true, message := "Successfully disconnected from VPN" },
      termEffs ++ [Effect.notify false "Disconnected from VPN"])

/-! ### Connect (`VPNManager.connect`) -/

/-- The environment a `connect` call observes beyond `StartEnv`: the `poll()`
observation for the existing child (for `_is_process_running`), the
`_quick_connectivity_test` result for the already-connected re-check, whether
`os.path.exists(config_file)` holds, whether a graceful terminate suffices in
a nested `disconnect`, `datetime.now()`, and the `_get_public_ip()` baseline
observation. -/
structure ConnectEnv where
  pollIsNone : Bool
  quickTest : Bool
  configFileExists : Bool
  graceful : Bool
  now : Nat
  publicIp : Option String
  start : StartEnv
deriving DecidableEq, Repr

/-- `VPNManager.connect`: default the config argument from
`current_vpn_config_file` (failing when both are absent); return the
idempotent already-connected result when connected to the same config, not
forced, with a live process and a passing connectivity re-check (clearing
`is_connected` when the re-check fails); disconnect any existing session;
fail when the config file does not exist; record the baseline egress IP once;
then run `_start_openvpn_connection` and, on success, set the session fields,
start monitoring, notify subscribers and persist settings. -/
def connect (st : VPNState) (env : ConnectEnv) (config_file : Option String)
    (force_reconnect : Bool) : VPNState × PyResult × List Effect :=
  let cf? := match config_file with
    | some c => some c
    | none => st.current_vpn_config_file
  match cf? with
  | none =>
    (st, { success := false, message := "No VPN configuration file specified" }, [])
  | some cf =>
    let alreadyBranch := st.is_connected && (st.current_config == some cf) &&
      !force_reconnect && is_process_running st.connection_process env.pollIsNone
    if alreadyBranch && env.quickTest then
      (st, { success := true, message := "Already connected to VPN", already_connected := true }, [])
    else
      let st0 := if alreadyBranch then { st with is_connected := false } else st
      let disc := if st0.is_connected then disconnect st0 env.graceful
        else (st0, { success := true, message := "" : PyResult }, [])
      let st1 := disc.1
      let effs1 := disc.2.2
      if !env.configFileExists then
        (st1, { success := false, message := "VPN configuration file not found: " ++ cf }, effs1)
      else
        let st2 := if st1.original_public_ip.isNone
          then { st1 with original_public_ip := env.publicIp } else st1
        let o := start_openvpn_connection env.start
        let st3 := match o.spawnedPid with
          | some pid => { st2 with connection_process := some pid }
          | none => st2
        if o.result.success then
          let st4 := save_settings { st3 with
            is_connected := true
            current_config := some cf
            current_vpn_config_file := some cf
            connection_start_time := some env.now
            monitoring_active := true }
          (st4, o.result,
            effs1 ++ o.effects ++ [Effect.notify true "Successfully connected to VPN", Effect.saveSettings])
        else
          (st3, o.result, effs1 ++ o.effects)

/-! ### Background monitor (`VPNManager._monitor_connection`) -/

/-- One iteration's observations of the monitor loop: whether
`_is_process_running()` still holds, whether `int(time.time()) % 30 == 0`
fires the deeper check this iteration, and the `_quick_connectivity_test`
result if it does. -/
structure MonTick where
  procAlive : Bool
  thirtySecond : Bool
  connectivityOk : Bool
deriving DecidableEq, Repr

/-- A status-change notification event as assembled by
`_notify_status_change` (the extra detail fields are not modelled). -/
structure Notif where
  connected : Bool
  message : String
deriving DecidableEq, Repr

/-- The for-loop of `_notify_status_change`: one notification event invokes
every subscribed callback once, in subscription order (callbacks identified
by index). -/
def notify_deliveries (callbacks : List Nat) (n : Notif) : List (Nat × Notif) :=
  callbacks.map fun c => (c, n)

/-- `VPNManager._monitor_connection`: while `monitoring_active` and
`is_connected`, each iteration first checks process liveness — a dead process
clears `is_connected`, notifies `"VPN process terminated"` and breaks the
loop; every ~30s a failed connectivity probe does the same with
`"VPN connectivity lost"`; otherwise sleep and continue.  The loop never
spawns, retries or reconnects.  Arguments: the remaining iterations'
observations, then the `monitoring_active` and `is_connected` flags; returns
the final `is_connected` flag and the emitted notifications. -/
def monitor_connection : List MonTick → Bool → Bool → Bool × List Notif
  | [], _, ic => (ic, [])
  | t :: rest, ma, ic =>
    if !(ma && ic) then (ic, [])
    else if !t.procAlive then (false, [⟨false, "VPN process terminated"⟩])
    else if t.thirtySecond && !t.connectivityOk then (false, [⟨false, "VPN connectivity lost"⟩])
    else monitor_connection rest ma ic

/-! ### Concrete fixtures used by witnesses -/

/-- A start environment whose establishment wait fails on a failure marker:
the spawn succeeds (pid 4242), the single log observation shows `AUTH_FAILED`
with the child never observed exited, the cleanup `terminate()` call does not
raise, and the signalled child has not yet exited when the call returns. -/
def envEstablishFailed : StartEnv :=
  { openvpn_exe := some "/usr/sbin/openvpn"
    config_content := some "remote vpn.example.com 1194"
    spawnResult := .ok 4242
    immediateExitCode := none
    waitObs := [⟨false, true, "AUTH_FAILED", false⟩]
    terminateRaises := false
    childAliveAtReturn := true }

/-- A manager state with a verified session to `a.ovpn` on pid 7. -/
def stConnectedA : VPNState :=
  { initState with
    is_connected := true
    current_config := some "a.ovpn"
    current_vpn_config_file := some "a.ovpn"
    connection_process := some 7
    connection_start_time := some 100 }

/-- A benign connect environment: live process poll, passing connectivity
re-check, existing config file. -/
def envIdle : ConnectEnv :=
  { pollIsNone := true
    quickTest := true
    configFileExists := true
    graceful := true
    now := 0
    publicIp := none
    start := envEstablishFailed }

/-! ### Claim theorems -/

/-- Claim C1, counterexample: the claim says no child spawned by a failing
establish call remains alive immediately after it returns, but the cleanup
path only issues an unawaited `terminate()` (SIGTERM) — in the concrete run
where the spawn succeeded, the log showed `AUTH_FAILED`, and the signalled
child has not yet exited when the call returns, the call returns failure with
its child still alive. -/
theorem establish_failure_child_alive_counterexample :
    (start_openvpn_connection envEstablishFailed).result.success = false ∧
      (start_openvpn_connection envEstablishFailed).childAliveAfterReturn = true := by
  decide

/-- Claim C1, amended: on every failure return of `_start_openvpn_connection`
with a spawned child and a non-raising cleanup `terminate()`, teardown is at
least initiated before the error is returned — the child is either already
dead (observed exited by `poll()`) or has been sent a `terminate()`; the call
does not wait for the signalled child to exit (unlike `disconnect`), so the
child may still be alive immediately after the failure return, and when
`terminate()` itself raises, failure is returned with no teardown at all. -/
theorem establish_failure_teardown_issued (env : StartEnv) (pid : Nat)
    (h : (start_openvpn_connection env).result.success = false)
    (hr : env.terminateRaises = false)
    (hp : (start_openvpn_connection env).spawnedPid = some pid) :
    (start_openvpn_connection env).childAliveAfterReturn = false ∨
      Effect.terminate pid ∈ (start_openvpn_connection env).effects := by
  rcases env with ⟨exe, cc, sr, iec, wo, tr, car⟩
  cases exe <;> cases sr <;> cases iec <;>
    simp_all [start_openvpn_connection] <;>
    split_ifs at * <;> simp_all

/-- Claim C1, witness: in the concrete failing establishment
`envEstablishFailed` the spawned child (pid 4242) is dead or was sent a
`terminate()` before the failure return. -/
theorem establish_failure_teardown_issued_witness :
    (start_openvpn_connection envEstablishFailed).childAliveAfterReturn = false ∨
      Effect.terminate 4242 ∈ (start_openvpn_connection envEstablishFailed).effects :=
  establish_failure_teardown_issued envEstablishFailed 4242 (by decide) (by decide) (by decide)

/-- Claim C2, counterexample: the claim says that when the current egress IP
equals the baseline, verification returns false — but when the secondary
reachability probe passes, `_verify_connection_working` returns true even for
identical IPs. -/
theorem verify_equal_ip_counterexample :
    verify_connection_working (some "203.0.113.5") (some "203.0.113.5") true = true := by
  decide

/-- Claim C2, amended: no obtainable current IP ⇒ false; obtainable and
different from the baseline ⇒ true; no baseline ever captured ⇒ any obtainable
IP gives true; current IP equal to the baseline ⇒ the result of the secondary
reachability probe (not unconditionally false). -/
theorem verify_connection_cases (orig : Option String) (b c : String) (qt : Bool) :
    verify_connection_working orig none qt = false ∧
      (c ≠ b → verify_connection_working (some b) (some c) qt = true) ∧
      verify_connection_working none (some c) qt = true ∧
      verify_connection_working (some b) (some b) qt = qt := by
  refine ⟨rfl, fun h => by simp [verify_connection_working, h], rfl, by
    simp [verify_connection_working]⟩

/-- Claim C2, witness: the spec's example pair — baseline `203.0.113.5`,
current `198.51.100.9` — verifies even with a failing reachability probe. -/
theorem verify_connection_cases_witness :
    verify_connection_working (some "203.0.113.5") (some "198.51.100.9") false = true :=
  (verify_connection_cases (some "203.0.113.5") "203.0.113.5" "198.51.100.9" false).2.1
    (by decide)

/-- Claim C3, counterexample: a directory holding one `.ovpn` file whose
content cannot be read (so `_parse_ovpn_file` raises) yields an empty config
list — the file is excluded, no record with a parse-error note is returned. -/
theorem parse_failure_drops_file :
    get_available_configs true [⟨"broken.ovpn", none, 7, 0⟩] = [] := by decide

/-- Claim C3, amended: a parse failure excludes the file — discovery returns
exactly one record per `.ovpn` file whose content is readable, and silently
drops (after logging a warning) every `.ovpn` file whose read raises. -/
theorem configs_keep_only_readable (d : Bool) (entries : List DirEntry) :
    get_available_configs d entries =
      if d then
        (entries.filter fun e => strEndsWith (strLower e.filename) ".ovpn" && e.content.isSome).map
          (fun e => mkConfigRecord e.filename (e.content.getD "") e.size e.modified)
      else [] := by
  cases d
  · simp [get_available_configs]
  · simp only [get_available_configs, Bool.not_true, Bool.false_eq_true, if_false, if_true]
    induction entries with
    | nil => simp
    | cons e es ih =>
      by_cases hov : strEndsWith (strLower e.filename) ".ovpn"
      · cases hc : e.content <;> simp [hov, hc, ih, List.filterMap_cons]
      · simp [hov, ih, List.filterMap_cons]

/-- Claim C4: while a verified session to config `a` is active (connected,
same config, live process, passing connectivity re-check), a non-forced
`connect(a)` returns the already-connected success result, performs no effect
(in particular spawns nothing), and leaves the state exactly unchanged — so
repeated such calls are idempotent. -/
theorem connect_already_connected_idempotent (st : VPNState) (env : ConnectEnv)
    (a : String) (pid : Nat)
    (h1 : st.is_connected = true) (h2 : st.current_config = some a)
    (h3 : st.connection_process = some pid) (h4 : env.pollIsNone = true)
    (h5 : env.quickTest = true) :
    connect st env (some a) false =
      (st, { success := true, message := "Already connected to VPN",
             already_connected := true }, []) := by
  simp [connect, is_process_running, h1, h2, h3, h4, h5]

/-- Claim C4, witness: the concrete connected state `stConnectedA` with a
benign environment returns already-connected, unchanged, effect-free. -/
theorem connect_already_connected_idempotent_witness :
    connect stConnectedA envIdle (some "a.ovpn") false =
      (stConnectedA, { success := true, message := "Already connected to VPN",
                       already_connected := true }, []) :=
  connect_already_connected_idempotent stConnectedA envIdle "a.ovpn" 7 rfl rfl rfl rfl rfl

/-- Claim C5: `_check_log_for_connection` checks the success-marker table
before the failure-marker table, first match wins — any log tail containing a
success marker classifies as `connected` regardless of failure markers;
`failed` only when no success marker occurs and some failure marker does;
`pending` otherwise. -/
theorem log_classification_success_first (tail : String) :
    ((∃ m ∈ successIndicators, strContains tail m = true) →
        check_log_for_connection true tail = .connected) ∧
      ((∀ m ∈ successIndicators, strContains tail m = false) →
        (∃ m ∈ failureIndicators, strContains tail m = true) →
        check_log_for_connection true tail = .failed) ∧
      ((∀ m ∈ successIndicators, strContains tail m = false) →
        (∀ m ∈ failureIndicators, strContains tail m = false) →
        check_log_for_connection true tail = .pending) := by
  refine ⟨fun h => ?_, fun hs hf => ?_, fun hs hf => ?_⟩
  · have ha : successIndicators.any (fun i => strContains tail i) = true :=
      List.any_eq_true.mpr h
    simp [check_log_for_connection, ha]
  · have h1 : successIndicators.any (fun i => strContains tail i) = false := by
      simp only [List.any_eq_false]
      intro m hm
      simp [hs m hm]
    have h2 : failureIndicators.any (fun i => strContains tail i) = true :=
      List.any_eq_true.mpr hf
    simp [check_log_for_connection, h1, h2]
  · have h1 : successIndicators.any (fun i => strContains tail i) = false := by
      simp only [List.any_eq_false]
      intro m hm
      simp [hs m hm]
    have h2 : failureIndicators.any (fun i => strContains tail i) = false := by
      simp only [List.any_eq_false]
      intro m hm
      simp [hf m hm]
    simp [check_log_for_connection, h1, h2]

/-- Claim C5, witness: a tail containing both the failure marker `SIGTERM` and
the success marker `Initialization Sequence Completed` classifies as
`connected` — success wins. -/
theorem log_classification_success_first_witness :
    check_log_for_connection true
        "SIGTERM received, yet Initialization Sequence Completed" = .connected :=
  (log_classification_success_first
      "SIGTERM received, yet Initialization Sequence Completed").1
    ⟨"Initialization Sequence Completed", by decide, by decide⟩

/-- Claim C6: discovery of a config file whose content is the single line
`remote vpn.example.com 1194 udp` yields a record with server
`vpn.example.com`, port `1194` (kept as the raw directive token, a string in
the Python dict) and the default protocol `udp` (no `proto` directive). -/
theorem parse_remote_line_record :
    get_available_configs true
        [⟨"test.ovpn", some "remote vpn.example.com 1194 udp", 31, 0⟩] =
      [{ filename := "test.ovpn", name := "test", server := some "vpn.example.com",
         port := some "1194", protocol := "udp", size := 31, modified := 0 }] := by
  decide

/-- Claim C7: `disconnect` returns success from every starting state; with no
active session it is an effect-free no-op returning `already_disconnected`;
with an active session it clears the connection flags, stops the monitor,
drops the process handle and still reports success — no caller-visible
failure mode. -/
theorem disconnect_always_success (st : VPNState) (g : Bool) :
    ((disconnect st g).2.1.success = true) ∧
      (st.is_connected = false →
        disconnect st g =
          (st, { success := true, message := "VPN is not connected",
                 already_disconnected := true }, [])) ∧
      (st.is_connected = true →
        (disconnect st g).1.is_connected = false ∧
          (disconnect st g).1.monitoring_active = false ∧
          (disconnect st g).1.current_config = none ∧
          (disconnect st g).1.connection_process = none ∧
          (disconnect st g).2.1 =
            { success := true, message := "Successfully disconnected from VPN" }) := by
  by_cases h : st.is_connected = true
  · refine ⟨?_, ?_, ?_⟩ <;> simp [disconnect, h]
  · simp only [Bool.not_eq_true] at h
    refine ⟨?_, ?_, ?_⟩ <;> simp [disconnect, h]

/-- Claim C7, witness: disconnecting the freshly initialised (inactive)
manager succeeds, reports `already_disconnected`, and performs no effect. -/
theorem disconnect_always_success_witness :
    (disconnect initState true).2.1.success = true ∧
      disconnect initState true =
        (initState, { success := true, message := "VPN is not connected",
                      already_disconnected := true }, []) :=
  ⟨(disconnect_always_success initState true).1,
   (disconnect_always_success initState true).2.1 rfl⟩

/-- Claim C8: with monitoring active on a connected session, the first monitor
iteration that observes the supervised process dead (i.e. within one monitor
interval of the death) clears `is_connected`, emits exactly one status-change
event with `connected = false` and the process-terminated reason — delivered
once to every subscriber — and stops the loop, ignoring all remaining ticks
(no retry, no reconnect). -/
theorem monitor_detects_process_death (ts co : Bool) (rest : List MonTick)
    (cbs : List Nat) :
    monitor_connection (⟨false, ts, co⟩ :: rest) true true =
        (false, [⟨false, "VPN process terminated"⟩]) ∧
      (monitor_connection (⟨false, ts, co⟩ :: rest) true true).2.flatMap
          (notify_deliveries cbs) =
        cbs.map fun c => (c, ⟨false, "VPN process terminated"⟩) := by
  simp [monitor_connection, notify_deliveries]

/-- Claim C9: `connect` with no config argument while no default config is
stored fails with the exact message `No VPN configuration file specified`,
performs no effect (in particular spawns nothing) and leaves the state
exactly unchanged. -/
theorem connect_no_config_fails (st : VPNState) (env : ConnectEnv) (force : Bool)
    (h : st.current_vpn_config_file = none) :
    connect st env none force =
      (st, { success := false, message := "No VPN configuration file specified" }, []) := by
  simp [connect, h]

/-- Claim C9, witness: the freshly initialised manager (no stored default)
rejects an argument-less connect, unchanged and effect-free. -/
theorem connect_no_config_fails_witness :
    connect initState envIdle none true =
      (initState, { success := false,
                    message := "No VPN configuration file specified" }, []) :=
  connect_no_config_fails initState envIdle true rfl

/-- Claim C10: `set_default_config` on a path that does not exist is a silent
no-op — the whole state, including the stored default config reference and
the persisted settings record, is returned unchanged, and the operation
yields no result value in either branch (its codomain is just the state). -/
theorem set_default_config_missing_noop (st : VPNState) (cf : String) :
    set_default_config false st cf = st := by
  simp [set_default_config]

end DustVPN
